import Mathlib

/-!
# Verification of the hmalib action layer (ThreatExchange hasher-matcher-actioner)

Shallow embedding of three source files:

* `hmalib/common/actioner_models.py` — the label model, action/rule catalog
  types, wire messages and webhook action performers;
* `hmalib/lambdas/actions/action_evaluator.py` — the match-event handler and
  the rule-evaluation / supersession / reaction-resolution functions;
* `hmalib/dto.py` — the durable DynamoDB record encodings.

Conventions of the embedding:

* JSON payloads are modelled by the `Json` tree below.  The `json.dumps` /
  `json.loads` pair of the Python standard library is a bijection between
  these trees and their textual rendering for the values that occur here
  (strings, arrays, string-keyed objects), so the textual layer is modelled
  as the identity on trees and wire equality is tree equality.
* Python functions that can raise are embedded as `Option` or `Except`
  valued functions; a `none` / `.error` result is a raised exception.
* `hmalib/models.py` (BankedSignal, MatchMessage and their dict/wire
  converters) is not part of the excerpt; those definitions are modelled
  from the specification and are marked `Modelled from the spec:` in their
  doc comments.  Everything else is translated from the source.
-/

namespace HMA

/-- JSON value trees: the payloads exchanged here use only strings, arrays
and string-keyed objects (plus the integer `Quality` attribute). -/
inductive Json where
  | str : String → Json
  | num : Int → Json
  | arr : List Json → Json
  | obj : List (String × Json) → Json

/-- Python `parsed[key]` on a parsed JSON object: `some` the mapped value,
`none` (KeyError) when the key is absent or the value is not an object. -/
def Json.lookup (j : Json) (key : String) : Option Json :=
  match j with
  | .obj fields => List.lookup key fields
  | _ => none

/-- Extract a JSON string, failing on any other shape. -/
def Json.asStr : Json → Option String
  | .str s => some s
  | _ => none

/-- Extract a JSON array, failing on any other shape. -/
def Json.asArr : Json → Option (List Json)
  | .arr l => some l
  | _ => none

/-- `Label` from actioner_models.py: a key/value classification tag. -/
structure Label where
  key : String
  value : String
deriving DecidableEq, Repr

/-- ClassificationLabel: a Label whose key is the constant
"Classification" (call-site semantics of the fixed-key subclass; the
class declaration itself is analysed separately below). -/
def ClassificationLabel (v : String) : Label := ⟨"Classification", v⟩

/-- BankSourceClassificationLabel: fixed key "BankSourceClassification". -/
def BankSourceClassificationLabel (v : String) : Label :=
  ⟨"BankSourceClassification", v⟩

/-- BankIDClassificationLabel: fixed key "BankIDClassification". -/
def BankIDClassificationLabel (v : String) : Label :=
  ⟨"BankIDClassification", v⟩

/-- BankedContentIDClassificationLabel: fixed key
"BankedContentIDClassification". -/
def BankedContentIDClassificationLabel (v : String) : Label :=
  ⟨"BankedContentIDClassification", v⟩

/-- ActionLabel: a Label whose key is the constant "Action". -/
def ActionLabel (v : String) : Label := ⟨"Action", v⟩

/-- ThreatExchangeReactionLabel: fixed key "ThreatExchangeReaction". -/
def ThreatExchangeReactionLabel (v : String) : Label :=
  ⟨"ThreatExchangeReaction", v⟩

/-- A Python value a Label may be compared against: another Label or some
non-label object. -/
inductive PyValue where
  | label : Label → PyValue
  | pyStr : String → PyValue
  | pyInt : Int → PyValue
  | pyNone : PyValue
deriving DecidableEq

/-- Non-label Python values, used to quantify over the "compared with a
value of a different type" case. -/
inductive PyNonLabel where
  | pyStr : String → PyNonLabel
  | pyInt : Int → PyNonLabel
  | pyNone : PyNonLabel
deriving DecidableEq

/-- Injection of non-label values into comparable Python values. -/
def PyNonLabel.toPyValue : PyNonLabel → PyValue
  | .pyStr s => .pyStr s
  | .pyInt n => .pyInt n
  | .pyNone => .pyNone

/-- `Label.__eq__` from actioner_models.py: componentwise comparison for
labels, `NotImplemented` (here `none`) for any other operand. -/
def Label.eqPy (l : Label) (other : PyValue) : Option Bool :=
  match other with
  | .label l2 => some (l.key == l2.key && l.value == l2.value)
  | _ => none

/-- The result of the Python `==` operator on a label and another value:
when `Label.__eq__` answers `NotImplemented` the interpreter falls back to
the reflected comparison and finally to object identity, which is false
for a label and a non-label (they are distinct objects).  The operator is
total: it never raises a type error. -/
def Label.pyEq (l : Label) (other : PyValue) : Bool :=
  match Label.eqPy l other with
  | some b => b
  | none => false

/-- `BankedSignal` from hmalib/models.py: the signal id, the bank name and
the bank source of one matched reference entry. -/
structure BankedSignal where
  banked_content_id : String
  bank_id : String
  bank_source : String
deriving DecidableEq, Repr

/-- Modelled from the spec: `BankedSignal.to_dict` (hmalib/models.py is not
part of the excerpt); a BankedSignal serializes to a JSON object holding
its three identifying fields. -/
def BankedSignal.to_dict (b : BankedSignal) : Json :=
  .obj [("BankedContentId", .str b.banked_content_id),
        ("BankId", .str b.bank_id),
        ("BankSource", .str b.bank_source)]

/-- Modelled from the spec: `BankedSignal.from_dict`, the inverse reader of
`BankedSignal.to_dict`; raises (is `none`) on a malformed object. -/
def BankedSignal.from_dict (j : Json) : Option BankedSignal := do
  let i ← (j.lookup "BankedContentId").bind Json.asStr
  let b ← (j.lookup "BankId").bind Json.asStr
  let s ← (j.lookup "BankSource").bind Json.asStr
  pure ⟨i, b, s⟩

/-- `MatchMessage` from hmalib/models.py: a content key, its hash, and the
ordered banked signals it matched. -/
structure MatchMessage where
  content_key : String
  content_hash : String
  matching_banked_signals : List BankedSignal
deriving DecidableEq, Repr

/-- Modelled from the spec: `MatchMessage.to_sns_message`; the inbound and
forwarded MatchMessage wire shape has exactly the keys ContentKey,
ContentHash and MatchingBankedSignals. -/
def MatchMessage.to_sns_message (m : MatchMessage) : Json :=
  .obj [("ContentKey", .str m.content_key),
        ("ContentHash", .str m.content_hash),
        ("MatchingBankedSignals",
          .arr (m.matching_banked_signals.map BankedSignal.to_dict))]

/-- Modelled from the spec: `MatchMessage.to_aws_message`, the same wire
shape used as the body of webhook calls. -/
def MatchMessage.to_aws_message (m : MatchMessage) : Json :=
  m.to_sns_message

/-- `ActionMessage` from actioner_models.py: a MatchMessage extended with
the resolved action label (its `key` is "Action" for every value built by
the one-argument ActionLabel constructor). -/
structure ActionMessage where
  content_key : String
  content_hash : String
  matching_banked_signals : List BankedSignal
  action_label : Label
deriving DecidableEq, Repr

/-- `ActionMessage.to_aws_message` from actioner_models.py. -/
def ActionMessage.to_aws_message (m : ActionMessage) : Json :=
  .obj [("ContentKey", .str m.content_key),
        ("ContentHash", .str m.content_hash),
        ("MatchingBankedSignals",
          .arr (m.matching_banked_signals.map BankedSignal.to_dict)),
        ("ActionLabelValue", .str m.action_label.value)]

/-- The list comprehension `[BankedSignal.from_dict(d) for d in ...]`: read
every element, raising (returning `none`) as soon as one element does. -/
def readBankedSignals : List Json → Option (List BankedSignal)
  | [] => some []
  | d :: rest => do
      let b ← BankedSignal.from_dict d
      let bs ← readBankedSignals rest
      pure (b :: bs)

/-- `ActionMessage.from_aws_message` from actioner_models.py. -/
def ActionMessage.from_aws_message (j : Json) : Option ActionMessage := do
  let ck ← (j.lookup "ContentKey").bind Json.asStr
  let ch ← (j.lookup "ContentHash").bind Json.asStr
  let ds ← (j.lookup "MatchingBankedSignals").bind Json.asArr
  let sigs ← readBankedSignals ds
  let alv ← (j.lookup "ActionLabelValue").bind Json.asStr
  pure ⟨ck, ch, sigs, ActionLabel alv⟩

/-- `ActionMessage.from_match_message_and_label` from actioner_models.py. -/
def ActionMessage.from_match_message_and_label
    (mm : MatchMessage) (al : Label) : ActionMessage :=
  ⟨mm.content_key, mm.content_hash, mm.matching_banked_signals, al⟩

/-- `ReactionMessage` from actioner_models.py: a MatchMessage extended with
the reaction label to send back to the signal source. -/
structure ReactionMessage where
  content_key : String
  content_hash : String
  matching_banked_signals : List BankedSignal
  reaction_label : Label
deriving DecidableEq, Repr

/-- `ReactionMessage.to_aws_message` from actioner_models.py. -/
def ReactionMessage.to_aws_message (m : ReactionMessage) : Json :=
  .obj [("ContentKey", .str m.content_key),
        ("ContentHash", .str m.content_hash),
        ("MatchingBankedSignals",
          .arr (m.matching_banked_signals.map BankedSignal.to_dict)),
        ("ReactionLabelValue", .str m.reaction_label.value)]

/-- `ReactionMessage.from_aws_message` from actioner_models.py. -/
def ReactionMessage.from_aws_message (j : Json) : Option ReactionMessage := do
  let ck ← (j.lookup "ContentKey").bind Json.asStr
  let ch ← (j.lookup "ContentHash").bind Json.asStr
  let ds ← (j.lookup "MatchingBankedSignals").bind Json.asArr
  let sigs ← readBankedSignals ds
  let rlv ← (j.lookup "ReactionLabelValue").bind Json.asStr
  pure ⟨ck, ch, sigs, ThreatExchangeReactionLabel rlv⟩

/-- Reading back a serialized banked-signal list recovers it exactly. -/
theorem readBankedSignals_to_dict (l : List BankedSignal) :
    readBankedSignals (l.map BankedSignal.to_dict) = some l := by
  induction l with
  | nil => rfl
  | cons b t ih =>
      simp only [List.map_cons, readBankedSignals]
      rw [show BankedSignal.from_dict b.to_dict = some b from rfl, ih]
      rfl

/-- Decoding the encoding of an action message with the canonical "Action"
key recovers the message. -/
theorem actionMessage_decode_encode (ck ch lv : String)
    (sigs : List BankedSignal) :
    ActionMessage.from_aws_message
        (ActionMessage.to_aws_message ⟨ck, ch, sigs, ⟨"Action", lv⟩⟩)
      = some ⟨ck, ch, sigs, ⟨"Action", lv⟩⟩ := by
  show (readBankedSignals (sigs.map BankedSignal.to_dict)).bind
      (fun l => some (⟨ck, ch, l, ActionLabel lv⟩ : ActionMessage)) = _
  rw [readBankedSignals_to_dict]
  rfl

/-- Decoding the encoding of a reaction message with the canonical
"ThreatExchangeReaction" key recovers the message. -/
theorem reactionMessage_decode_encode (ck ch lv : String)
    (sigs : List BankedSignal) :
    ReactionMessage.from_aws_message
        (ReactionMessage.to_aws_message
          ⟨ck, ch, sigs, ⟨"ThreatExchangeReaction", lv⟩⟩)
      = some ⟨ck, ch, sigs, ⟨"ThreatExchangeReaction", lv⟩⟩ := by
  show (readBankedSignals (sigs.map BankedSignal.to_dict)).bind
      (fun l => some
        (⟨ck, ch, l, ThreatExchangeReactionLabel lv⟩ : ReactionMessage)) = _
  rw [readBankedSignals_to_dict]
  rfl

/-- C2: the textual wire encoding round-trips losslessly — for every valid
ActionMessage (action label built by the ActionLabel constructor, so its
key is "Action") decoding the encoding yields the original message, with
content_key, content_hash, the ordered banked-signal sequence and the
action label intact; likewise for every valid ReactionMessage. -/
theorem aws_message_round_trip :
    (∀ (m : ActionMessage), m.action_label.key = "Action" →
        ActionMessage.from_aws_message m.to_aws_message = some m)
      ∧ (∀ (m : ReactionMessage),
          m.reaction_label.key = "ThreatExchangeReaction" →
        ReactionMessage.from_aws_message m.to_aws_message = some m) := by
  constructor
  · intro m h
    obtain ⟨ck, ch, sigs, lk, lv⟩ := m
    change lk = "Action" at h
    subst h
    exact actionMessage_decode_encode ck ch lv sigs
  · intro m h
    obtain ⟨ck, ch, sigs, lk, lv⟩ := m
    change lk = "ThreatExchangeReaction" at h
    subst h
    exact reactionMessage_decode_encode ck ch lv sigs

/-- Witness for the round-trip theorem at concrete messages. -/
theorem aws_message_round_trip_witness :
    ActionMessage.from_aws_message
        (ActionMessage.to_aws_message
          ⟨"k", "h", [⟨"1", "b4", "te"⟩], ⟨"Action", "X"⟩⟩)
      = some ⟨"k", "h", [⟨"1", "b4", "te"⟩], ⟨"Action", "X"⟩⟩
    ∧ ReactionMessage.from_aws_message
        (ReactionMessage.to_aws_message
          ⟨"k", "h", [], ⟨"ThreatExchangeReaction", "SAW_THIS_TOO"⟩⟩)
      = some ⟨"k", "h", [], ⟨"ThreatExchangeReaction", "SAW_THIS_TOO"⟩⟩ :=
  ⟨aws_message_round_trip.1
      ⟨"k", "h", [⟨"1", "b4", "te"⟩], ⟨"Action", "X"⟩⟩ rfl,
   aws_message_round_trip.2
      ⟨"k", "h", [], ⟨"ThreatExchangeReaction", "SAW_THIS_TOO"⟩⟩ rfl⟩

/-- From the source: for each action label resolved for a match event,
lambda_handler publishes to the actions queue the body
json.dumps(match_message.to_sns_message()) — the plain match message,
independent of the action label. -/
def lambda_handler_published_body
    (match_message : MatchMessage) (_action_label : Label) : Json :=
  match_message.to_sns_message

/-- A concrete match message (signal values from the source module's own
driver block). -/
def sample_match_message : MatchMessage :=
  ⟨"key", "hash", [⟨"2862392437204724", "bank 4", "te"⟩]⟩

/-- C3 counter-evaluation: the body the handler publishes for a resolved
action label has no "ActionLabelValue" field, while the serialization of
the ActionMessage built from the match message plus that label carries it;
the published body is not that serialization. -/
theorem published_body_lacks_action_label :
    (lambda_handler_published_body sample_match_message
        (ActionLabel "EnqueueForReview")).lookup "ActionLabelValue" = none
    ∧ (ActionMessage.from_match_message_and_label sample_match_message
        (ActionLabel "EnqueueForReview")).to_aws_message.lookup
          "ActionLabelValue" = some (.str "EnqueueForReview")
    ∧ lambda_handler_published_body sample_match_message
        (ActionLabel "EnqueueForReview")
      ≠ (ActionMessage.from_match_message_and_label sample_match_message
          (ActionLabel "EnqueueForReview")).to_aws_message := by
  refine ⟨rfl, rfl, ?_⟩
  intro h
  have h2 := congrArg (fun j => Json.lookup j "ActionLabelValue") h
  exact Option.noConfusion h2

/-- `ActionRule` from actioner_models.py: label preconditions leading to an
action label. -/
structure ActionRule where
  action_label : Label
  must_have_labels : List Label
  must_not_have_labels : List Label
deriving DecidableEq, Repr

/-- `action_rule_applies_to_match_message` from action_evaluator.py: the
body is `return True` (its docstring describes the intended must-have /
must-not-have test, which the body does not perform). -/
def action_rule_applies_to_match_message
    (_action_rule : ActionRule) (_match_message : MatchMessage) : Bool :=
  true

/-- The applicability test as the spec states it: every label of
must_have_labels is present among the derived labels of the match message
and no label of must_not_have_labels is present, presence being full
(key, value) Label equality. -/
def rule_applies_spec (rule : ActionRule) (derived_labels : List Label) :
    Bool :=
  rule.must_have_labels.all (fun l => derived_labels.contains l)
    && rule.must_not_have_labels.all (fun l => !derived_labels.contains l)

/-- `get_action_rules` from action_evaluator.py: the fixed catalog the stub
returns. -/
def get_action_rules : List ActionRule :=
  [⟨ActionLabel "EnqueueForReview", [⟨"Collaboration", "12345"⟩], []⟩]

/-- A match message with no banked signals: it derives no classification
labels at all. -/
def no_signal_match_message : MatchMessage := ⟨"key", "hash", []⟩

/-- C1 counter-evaluation: on the catalog rule, whose must_have_labels
demand ("Collaboration", "12345"), and a match message deriving no labels,
the source function still answers true, while the stated condition is
false (a required label is missing). -/
theorem rule_applies_stub_ignores_labels :
    action_rule_applies_to_match_message
        ⟨ActionLabel "EnqueueForReview", [⟨"Collaboration", "12345"⟩], []⟩
        no_signal_match_message = true
    ∧ rule_applies_spec
        ⟨ActionLabel "EnqueueForReview", [⟨"Collaboration", "12345"⟩], []⟩
        [] = false
    ∧ get_action_rules.contains
        ⟨ActionLabel "EnqueueForReview", [⟨"Collaboration", "12345"⟩], []⟩
        = true := by
  refine ⟨rfl, by decide, by decide⟩

/-- `Action` from actioner_models.py: an action label, its priority and the
labels that supersede it. -/
structure Action where
  action_label : Label
  priority : Int
  superseded_by : List Label
deriving DecidableEq, Repr

/-- `get_actions` from action_evaluator.py: the fixed catalog the stub
returns. -/
def get_actions : List Action :=
  [⟨ActionLabel "ENQUEUE_FOR_REVIEW", 1,
    [ActionLabel "A_MORE_IMPORTANT_ACTION"]⟩]

/-- `remove_superseded_actions` from action_evaluator.py: the body is
`return action_labels` (its docstring says superseded labels will be
removed, which the body does not do). -/
def remove_superseded_actions (action_labels : List Label) : List Label :=
  action_labels

/-- The superseded_by list the catalog records for a label (empty when the
label has no catalog Action). -/
def superseded_by_of (actions : List Action) (x : Label) : List Label :=
  match actions.find? (fun a => a.action_label == x) with
  | some a => a.superseded_by
  | none => []

/-- The supersession removal as the spec states it: a label X is removed
exactly when some other label Y of the list appears in the superseded_by
list of the catalog Action for X. -/
def remove_superseded_actions_spec (actions : List Action)
    (action_labels : List Label) : List Label :=
  action_labels.filter (fun x =>
    !(action_labels.any (fun y =>
        y != x && (superseded_by_of actions x).contains y)))

/-- C4 counter-evaluation: with the catalog pairing ENQUEUE_FOR_REVIEW (A)
with superseded_by [A_MORE_IMPORTANT_ACTION] (B), the list [A, B] should
resolve to [B], but the source function returns [A, B] unchanged. -/
theorem remove_superseded_actions_is_identity_stub :
    remove_superseded_actions
        [ActionLabel "ENQUEUE_FOR_REVIEW", ActionLabel "A_MORE_IMPORTANT_ACTION"]
      = [ActionLabel "ENQUEUE_FOR_REVIEW", ActionLabel "A_MORE_IMPORTANT_ACTION"]
    ∧ remove_superseded_actions_spec get_actions
        [ActionLabel "ENQUEUE_FOR_REVIEW", ActionLabel "A_MORE_IMPORTANT_ACTION"]
      = [ActionLabel "A_MORE_IMPORTANT_ACTION"]
    ∧ ([ActionLabel "ENQUEUE_FOR_REVIEW", ActionLabel "A_MORE_IMPORTANT_ACTION"]
        : List Label) ≠ [ActionLabel "A_MORE_IMPORTANT_ACTION"] := by
  refine ⟨rfl, by decide, by decide⟩

/-- One attribute of a Python class body, as the dataclasses machinery
sees it: its name, whether its value is a `field(...)` object, and whether
the class body gives it a type annotation. -/
structure PyClassAttr where
  attr_name : String
  is_field_object : Bool
  annotated : Bool
deriving DecidableEq, Repr

/-- The check the stdlib dataclass decorator runs over the class body
(external collaborator, dataclasses._process_class): a member whose value
is a `field(...)` object but which carries no type annotation makes the
class definition raise TypeError. -/
def dataclass_process_class (own_attrs : List PyClassAttr) :
    Except String Unit :=
  match own_attrs.find? (fun a => a.is_field_object && !a.annotated) with
  | some a => .error (a.attr_name ++ " is a field but has no type annotation")
  | none => .ok ()

/-- From the source: every fixed-key Label subclass body
(ClassificationLabel, BankSourceClassificationLabel,
BankIDClassificationLabel, BankedContentIDClassificationLabel,
ActionLabel, ThreatExchangeReactionLabel) consists of the single statement
`key = field(default=..., init=False)`, a field object with no type
annotation. -/
def fixed_key_label_subclass_attrs : List PyClassAttr :=
  [⟨"key", true, false⟩]

/-- C5 counter-evaluation: processing any of the six fixed-key label
subclass bodies raises TypeError, so no instance of these kinds can be
constructed at all. -/
theorem label_subclass_declaration_raises :
    dataclass_process_class fixed_key_label_subclass_attrs
      = .error "key is a field but has no type annotation" := rfl

/-- C6: Label equality is componentwise — equal key/value pairs compare
equal, a differing value compares unequal — and comparing a label with any
non-label value is a defined "not equal" result (the comparison is a total
function into Bool, never a type failure). -/
theorem label_equality_componentwise_and_total :
    (Label.pyEq ⟨"K", "V"⟩ (.label ⟨"K", "V"⟩) = true)
      ∧ (Label.pyEq ⟨"K", "V"⟩ (.label ⟨"K", "X"⟩) = false)
      ∧ ∀ (l : Label) (v : PyNonLabel), Label.pyEq l v.toPyValue = false := by
  refine ⟨rfl, by decide, ?_⟩
  intro l v
  cases v <;> rfl

/-- A DynamoDB attribute value: a string or a number (the shapes dto.py
writes). -/
inductive AttrVal where
  | s : String → AttrVal
  | n : Int → AttrVal
deriving DecidableEq, Repr

/-- The stdlib datetime (external collaborator), modelled by its ISO-8601
rendering: `isoformat` returns it. -/
structure Datetime where
  iso : String
deriving DecidableEq, Repr

/-- `datetime.isoformat` for the model above. -/
def Datetime.isoformat (d : Datetime) : String := d.iso

/-- `PDQRecordBase.SIGNAL_TYPE` from dto.py. -/
def SIGNAL_TYPE : String := "pdq"

/-- `get_dynamodb_content_key` from dto.py. -/
def get_dynamodb_content_key (key : String) : String := "c#" ++ key

/-- `get_dynamodb_type_key` from dto.py. -/
def get_dynamodb_type_key (key : String) : String := "type#" ++ key

/-- `PDQMatchRecord.get_dynamodb_te_key` from dto.py (the te id is an int,
rendered by the f-string). -/
def get_dynamodb_te_key (key : Int) : String := "te#" ++ toString key

/-- `PipelinePDQHashRecord` from dto.py. -/
structure PipelinePDQHashRecord where
  content_key : String
  content_hash : String
  timestamp : Datetime
  quality : Int
deriving DecidableEq, Repr

/-- `PipelinePDQHashRecord.to_dynamodb_item` from dto.py. -/
def PipelinePDQHashRecord.to_dynamodb_item (r : PipelinePDQHashRecord) :
    List (String × AttrVal) :=
  [("PK", .s (get_dynamodb_content_key r.content_key)),
   ("SK", .s (get_dynamodb_type_key SIGNAL_TYPE)),
   ("ContentHash", .s r.content_hash),
   ("Quality", .n r.quality),
   ("Timestamp", .s r.timestamp.isoformat),
   ("HashType", .s SIGNAL_TYPE)]

/-- `PDQMatchRecord` from dto.py. -/
structure PDQMatchRecord where
  content_key : String
  content_hash : String
  timestamp : Datetime
  te_id : Int
  te_hash : String
deriving DecidableEq, Repr

/-- `PDQMatchRecord.to_dynamodb_item` from dto.py. -/
def PDQMatchRecord.to_dynamodb_item (r : PDQMatchRecord) :
    List (String × AttrVal) :=
  [("PK", .s (get_dynamodb_content_key r.content_key)),
   ("SK", .s (get_dynamodb_te_key r.te_id)),
   ("ContentHash", .s r.content_hash),
   ("Timestamp", .s r.timestamp.isoformat),
   ("TEHash", .s r.te_hash),
   ("GSI1-PK", .s (get_dynamodb_te_key r.te_id)),
   ("GSI1-SK", .s (get_dynamodb_content_key r.content_key)),
   ("HashType", .s SIGNAL_TYPE),
   ("GSI2-PK", .s (get_dynamodb_type_key SIGNAL_TYPE))]

/-- C7: to_dynamodb_item returns exactly the claimed single-table layout —
for hash records PK `c#<content_key>`, SK `type#<hash_type>` and the
ContentHash / Quality / Timestamp (ISO-8601) / HashType attributes; for
match records PK `c#<content_key>`, SK `te#<bank_entry_id>`, the
ContentHash / Timestamp / TEHash / HashType attributes and the GSI1-PK,
GSI1-SK, GSI2-PK index projections. -/
theorem dynamodb_item_layout :
    (∀ (r : PipelinePDQHashRecord),
      r.to_dynamodb_item =
        [("PK", .s ("c#" ++ r.content_key)),
         ("SK", .s "type#pdq"),
         ("ContentHash", .s r.content_hash),
         ("Quality", .n r.quality),
         ("Timestamp", .s r.timestamp.isoformat),
         ("HashType", .s "pdq")])
    ∧ ∀ (r : PDQMatchRecord),
      r.to_dynamodb_item =
        [("PK", .s ("c#" ++ r.content_key)),
         ("SK", .s ("te#" ++ toString r.te_id)),
         ("ContentHash", .s r.content_hash),
         ("Timestamp", .s r.timestamp.isoformat),
         ("TEHash", .s r.te_hash),
         ("GSI1-PK", .s ("te#" ++ toString r.te_id)),
         ("GSI1-SK", .s ("c#" ++ r.content_key)),
         ("HashType", .s "pdq"),
         ("GSI2-PK", .s "type#pdq")] :=
  ⟨fun _ => rfl, fun _ => rfl⟩

/-- `threat_exchange_reacting_is_enabled` from action_evaluator.py: the
body is `return True` (its docstring says it should look the flag up from
a config). -/
def threat_exchange_reacting_is_enabled (_match_message : MatchMessage) :
    Bool :=
  true

/-- `get_threat_exchange_reaction_labels` from action_evaluator.py: the
body returns the fixed list [ThreatExchangeReactionLabel("SAW_THIS_TOO")]
for every input. -/
def get_threat_exchange_reaction_labels (_match_message : MatchMessage)
    (_action_labels : List Label) : List Label :=
  [ThreatExchangeReactionLabel "SAW_THIS_TOO"]

/-- The reaction section of lambda_handler from action_evaluator.py: the
enabled check is evaluated first, and only in the enabled branch are
reaction labels resolved and react_to_threat_exchange invoked once per
resolved label; the result lists the (match message, reaction label) work
items performed. -/
def lambda_handler_reaction_work (enabled : MatchMessage → Bool)
    (match_message : MatchMessage) (action_labels : List Label) :
    List (MatchMessage × Label) :=
  if enabled match_message then
    (get_threat_exchange_reaction_labels match_message action_labels).map
      (fun l => (match_message, l))
  else []

/-- Modelled from the spec: the reacting-enabled check reads a global
boolean config from the configuration store (hmalib.common.config is not
part of the excerpt); the source stub defers that lookup. -/
def threat_exchange_reacting_is_enabled_config (reacting_enabled : Bool)
    (_match_message : MatchMessage) : Bool :=
  reacting_enabled

/-- Modelled from the spec: resolve_reaction_labels is gated by the
reacting-enabled check, evaluated before any resolution work; when
disabled it returns empty.  The gate mirrors the handler's structure
around get_threat_exchange_reaction_labels. -/
def resolve_reaction_labels (reacting_enabled : Bool)
    (match_message : MatchMessage) (resolved_action_labels : List Label) :
    List Label :=
  if threat_exchange_reacting_is_enabled_config reacting_enabled
      match_message then
    get_threat_exchange_reaction_labels match_message resolved_action_labels
  else []

/-- C8: when the reacting-enabled check evaluates to false for a match
message, reaction resolution returns the empty set and the handler
performs no reaction work, whatever the resolved action labels; the check
is the first thing evaluated (it guards the whole branch). -/
theorem reaction_resolution_gated_on_disabled (reacting_enabled : Bool)
    (mm : MatchMessage) (al : List Label)
    (h : threat_exchange_reacting_is_enabled_config reacting_enabled mm
          = false) :
    resolve_reaction_labels reacting_enabled mm al = []
      ∧ lambda_handler_reaction_work
          (threat_exchange_reacting_is_enabled_config reacting_enabled)
          mm al = [] := by
  constructor
  · simp [resolve_reaction_labels, h]
  · simp [lambda_handler_reaction_work, h]

/-- Witness for the reaction gate at the disabled config. -/
theorem reaction_resolution_gated_on_disabled_witness :
    threat_exchange_reacting_is_enabled_config false sample_match_message
        = false
      ∧ (resolve_reaction_labels false sample_match_message [] = []
          ∧ lambda_handler_reaction_work
              (threat_exchange_reacting_is_enabled_config false)
              sample_match_message [] = []) :=
  ⟨rfl,
   reaction_resolution_gated_on_disabled false sample_match_message [] rfl⟩

/-- C10: the source stubs make the handler react to every match event —
get_threat_exchange_reaction_labels returns exactly
[ThreatExchangeReactionLabel("SAW_THIS_TOO")] for every input,
threat_exchange_reacting_is_enabled returns true for every match message,
and the handler's reaction section produces that one reaction work item
even when no action rule applied (empty action-label list). -/
theorem reaction_stubs_always_react :
    (∀ (mm : MatchMessage) (al : List Label),
        get_threat_exchange_reaction_labels mm al
          = [ThreatExchangeReactionLabel "SAW_THIS_TOO"])
      ∧ (∀ (mm : MatchMessage),
          threat_exchange_reacting_is_enabled mm = true)
      ∧ ∀ (mm : MatchMessage),
          lambda_handler_reaction_work threat_exchange_reacting_is_enabled
              mm []
            = [(mm, ThreatExchangeReactionLabel "SAW_THIS_TOO")] :=
  ⟨fun _ _ => rfl, fun _ => rfl, fun _ => rfl⟩

/-- An HTTP response, reduced to its status code (requests.Response,
external collaborator). -/
structure Response where
  status_code : Int
deriving DecidableEq, Repr

/-- Whether a response reports 2xx success. -/
def Response.is_success (r : Response) : Bool :=
  200 ≤ r.status_code && r.status_code < 300

/-- The HTTP transport (the requests library, external collaborator): each
verb maps a url — and a body, for POST and PUT — to a response, or to a
raised transport error.  requests raises only on transport failures; a
response with any status, 2xx or not, is an `.ok` result. -/
structure Network where
  http_get : String → Except String Response
  http_post : String → Json → Except String Response
  http_put : String → Json → Except String Response
  http_delete : String → Except String Response

/-- `WebhookActionPerformer` configuration from actioner_models.py: the
url to hit. -/
structure WebhookActionPerformer where
  url : String
deriving DecidableEq, Repr

/-- `WebhookPostActionPerformer.call`: POST the data to the url. -/
def WebhookPostActionPerformer.call (net : Network)
    (p : WebhookActionPerformer) (data : Json) : Except String Response :=
  net.http_post p.url data

/-- `WebhookGetActionPerformer.call`: GET the url, ignoring the data. -/
def WebhookGetActionPerformer.call (net : Network)
    (p : WebhookActionPerformer) (_data : Json) : Except String Response :=
  net.http_get p.url

/-- `WebhookPutActionPerformer.call`: PUT the data to the url. -/
def WebhookPutActionPerformer.call (net : Network)
    (p : WebhookActionPerformer) (data : Json) : Except String Response :=
  net.http_put p.url data

/-- `WebhookDeleteActionPerformer.call`: DELETE the url, ignoring the
data. -/
def WebhookDeleteActionPerformer.call (net : Network)
    (p : WebhookActionPerformer) (_data : Json) : Except String Response :=
  net.http_delete p.url

/-- The four webhook subtypes, distinguished only by HTTP verb. -/
inductive WebhookVerb where
  | post
  | get
  | put
  | delete
deriving DecidableEq, Repr

/-- The call method of the webhook subtype for a given verb. -/
def webhook_call (v : WebhookVerb) (net : Network)
    (p : WebhookActionPerformer) : Json → Except String Response :=
  match v with
  | .post => WebhookPostActionPerformer.call net p
  | .get => WebhookGetActionPerformer.call net p
  | .put => WebhookPutActionPerformer.call net p
  | .delete => WebhookDeleteActionPerformer.call net p

/-- The Python None value. -/
inductive PyNone where
  | none
deriving DecidableEq, Repr

/-- `WebhookActionPerformer.perform_action` from actioner_models.py: runs
self.call(data=match_message.to_aws_message()) and falls off the end of
the body, returning None; the Response the call produced is discarded. -/
def WebhookActionPerformer.perform_action
    (call : Json → Except String Response) (match_message : MatchMessage) :
    Except String PyNone :=
  (call match_message.to_aws_message).map (fun _ => PyNone.none)

/-- A transport that always delivers a response with the given status. -/
def const_status_network (status : Int) : Network :=
  ⟨fun _ => .ok ⟨status⟩, fun _ _ => .ok ⟨status⟩,
   fun _ _ => .ok ⟨status⟩, fun _ => .ok ⟨status⟩⟩

/-- C9 amended: for every webhook variant and every status the HTTP call
answers with — 2xx or not — perform_action returns normally (it raises no
exception) with Python None, discarding the response, so the outcome of
the call is not reported to the caller. -/
theorem perform_action_total_returns_none :
    ∀ (v : WebhookVerb) (status : Int) (p : WebhookActionPerformer)
      (mm : MatchMessage),
      WebhookActionPerformer.perform_action
          (webhook_call v (const_status_network status) p) mm
        = .ok PyNone.none := by
  intro v status p mm
  cases v <;> rfl

/-- C9 counterexample: a 200 success and a 500 failure produce the same
return value from perform_action, so its result does not report the
call's success or failure. -/
theorem perform_action_discards_outcome :
    WebhookActionPerformer.perform_action
        (webhook_call .post (const_status_network 200) ⟨"http://x.example"⟩)
        sample_match_message
      = WebhookActionPerformer.perform_action
          (webhook_call .post (const_status_network 500)
            ⟨"http://x.example"⟩)
          sample_match_message
    ∧ Response.is_success ⟨200⟩ = true
    ∧ Response.is_success ⟨500⟩ = false :=
  ⟨rfl, by decide, by decide⟩

end HMA
